import Mathlib

/-!
# OpenForge — verification of the dashboard-metrics and GitHub-repo logic

Shallow embedding of the computational core of the OpenForge repository:

* the dashboard metrics pipeline documented in `DASHBOARD_METRICS_CHANGES.md`
  (monthly project filter, joined-project contribution counting, time-saved
  aggregation, streak update);
* the GitHub token selection documented in `GITHUB_TOKEN_SETUP.md`;
* the XP level thresholds and progress bar of
  `frontend/components/dashboard/user-rank.tsx`;
* the repository-name validation of the create-repo modal;
* the star-toggle error path of
  `frontend/components/dashboard/project-card.tsx`.

Times and dates are embedded as explicit calendar components (Python
`datetime` comparison is lexicographic on components); JavaScript numbers
are embedded as `ℚ` where the arithmetic is exact, machine integers as
`ℤ`/`ℕ`; absent document fields are `Option`.
-/

namespace OpenForge

/-- A UTC timestamp, embedded as calendar components.  `minuteOfDay`
abstracts the sub-day part (hour/minute/second); Python `datetime`
comparison is lexicographic on `(year, month, day, time-of-day)`. -/
structure DateTime where
  year : Int
  month : Nat
  day : Nat
  minuteOfDay : Nat
deriving DecidableEq, Repr

/-- Strict lexicographic comparison of two timestamps, as Python compares
`datetime` values. -/
def dtLt (a b : DateTime) : Bool :=
  decide (a.year < b.year) ||
    (a.year == b.year &&
      (decide (a.month < b.month) ||
        (a.month == b.month &&
          (decide (a.day < b.day) ||
            (a.day == b.day && decide (a.minuteOfDay < b.minuteOfDay))))))

/-- Non-strict timestamp comparison: `a <= b` in Python. -/
def dtLe (a b : DateTime) : Bool :=
  dtLt a b || a == b

/-- A `projects` document, with the fields the dashboard metrics read.
`setup_time_estimate_minutes` is a raw document field (`p.get`): `none`
embeds the key being absent, `some none` a stored null, `some (some n)` a
stored integer. -/
structure Project where
  id : String
  created_at : DateTime
  setup_time_estimate_minutes : Option (Option Nat)
deriving DecidableEq, Repr

/-- A `contributions` document with the fields the dashboard counters
read.  `type` is one of `"commit"`, `"pull_request"`, `"issue"`. -/
structure Contribution where
  user_id : String
  project_id : String
  type : String
deriving DecidableEq, Repr

/-- `datetime(now_utc.year, now_utc.month, 1)` — the start of the current
calendar month (`backend/app/routers/dashboard.py` via
`DASHBOARD_METRICS_CHANGES.md`, Monthly Project Filtering). -/
def monthStart (now : DateTime) : DateTime :=
  ⟨now.year, now.month, 1, 0⟩

/-- Start of the month after `now`'s month (used only to state the
spec's "exclusive of next month start" bound; not computed by the code). -/
def nextMonthStart (now : DateTime) : DateTime :=
  if now.month == 12 then ⟨now.year + 1, 1, 1, 0⟩
  else ⟨now.year, now.month + 1, 1, 0⟩

/-- The monthly project filter
(`DASHBOARD_METRICS_CHANGES.md`, Monthly Project Filtering):
`[p for p in owned_projects if p.get("created_at") >= current_month_start]`. -/
def owned_projects_this_month (owned_projects : List Project) (now : DateTime) :
    List Project :=
  owned_projects.filter (fun p => dtLe (monthStart now) p.created_at)

/-- `joined_project_ids = [str(p["_id"]) for p in contributed_projects]`
(`DASHBOARD_METRICS_CHANGES.md`, Contribution Filtering). -/
def joined_project_ids (contributed_projects : List Project) : List String :=
  contributed_projects.map (fun p => p.id)

/-- `[c for c in all_contributions if c.get("project_id") in joined_project_ids]`
(`DASHBOARD_METRICS_CHANGES.md`, Contribution Filtering). -/
def filterContributions (all_contributions : List Contribution)
    (ids : List String) : List Contribution :=
  all_contributions.filter (fun c => ids.contains c.project_id)

/-- Count of the filtered contributions of one `type`
(`DASHBOARD_METRICS_CHANGES.md`, Total Contributions / Pull Requests /
Issues Closed: contributions of the given type from joined projects). -/
def countContributionsOfType (cs : List Contribution) (t : String) : Nat :=
  (cs.filter (fun c => c.type == t)).length

/-- The dashboard `commits` counter: commit-type contributions restricted
to joined projects. -/
def dashboardCommits (all_contributions : List Contribution)
    (contributed_projects : List Project) : Nat :=
  countContributionsOfType
    (filterContributions all_contributions (joined_project_ids contributed_projects))
    "commit"

/-- The dashboard `pullRequests` counter. -/
def dashboardPullRequests (all_contributions : List Contribution)
    (contributed_projects : List Project) : Nat :=
  countContributionsOfType
    (filterContributions all_contributions (joined_project_ids contributed_projects))
    "pull_request"

/-- The dashboard `issuesClosed` counter. -/
def dashboardIssuesClosed (all_contributions : List Contribution)
    (contributed_projects : List Project) : Nat :=
  countContributionsOfType
    (filterContributions all_contributions (joined_project_ids contributed_projects))
    "issue"

/-- `p.get("setup_time_estimate_minutes", 7)`: the `dict.get` default 7
applies only when the key is absent; a key stored as null yields the
stored `None` (`none` here), not the default. -/
def setupEstimateGet (p : Project) : Option Nat :=
  match p.setup_time_estimate_minutes with
  | none => some 7
  | some v => v

/-- `time_saved_minutes = sum(p.get("setup_time_estimate_minutes", 7) for p
in contributed_projects)` (`DASHBOARD_METRICS_CHANGES.md`, Time Saved
Calculation).  Python `sum` raises `TypeError` when a yielded value is
`None` (a stored null); the raised error is embedded as `none`. -/
def time_saved_minutes : List Project → Option Nat
  | [] => some 0
  | p :: ps =>
    match setupEstimateGet p, time_saved_minutes ps with
    | some n, some m => some (n + m)
    | _, _ => none

/-- Modelled from the spec: the streak calculation of
`backend/app/routers/dashboard.py` is absent from the source tree; only its
step-by-step description survives (`DASHBOARD_METRICS_CHANGES.md`, Streak
Calculation, and spec §4.1).  Days are calendar-day numbers; an absent or
unparseable `last_visit_date` is embedded as `none`.  Returns the new
`current_streak` and the persisted `last_visit_date` (= today). -/
def updateStreak (last_visit_day : Option Int) (current_streak : Int)
    (today : Int) : Int × Int :=
  match last_visit_day with
  | none => (1, today)
  | some d =>
    let days_diff := today - d
    if days_diff = 0 then (current_streak, today)
    else if days_diff = 1 then (current_streak + 1, today)
    else (1, today)

/-- A GitHub access token together with its granted OAuth scopes. -/
structure GitHubToken where
  token : String
  scopes : List String
deriving DecidableEq, Repr

/-- Modelled from the spec: the fallback half of the token selection of the
repo-creation route (`GITHUB_TOKEN_SETUP.md`, Token Priority) — the code
itself is absent from the source tree.  The environment `GITHUB_TOKEN` is
used when present with `repo` scope; otherwise the selection fails
(`none` embeds the "no authorized token" error). -/
def envTokenFallback (env : Option GitHubToken) : Option GitHubToken :=
  match env with
  | some e => if e.scopes.contains "repo" then some e else none
  | none => none

/-- Modelled from the spec: token selection for repository creation
(`GITHUB_TOKEN_SETUP.md`, Token Priority; spec §4.5).  Prefer the Clerk
OAuth token when it carries `repo` scope; otherwise fall back to the
environment token. -/
def selectGitHubToken (clerk env : Option GitHubToken) : Option GitHubToken :=
  match clerk with
  | some t => if t.scopes.contains "repo" then some t else envTokenFallback env
  | none => envTokenFallback env

/-- Whether an optional token is present and carries the `repo` scope. -/
def hasRepoScope (o : Option GitHubToken) : Bool :=
  match o with
  | some t => t.scopes.contains "repo"
  | none => false

/-- `getLevelThresholds` of `user-rank.tsx`: level → (min, max) XP band.
Levels 1–5 are the hand-picked bands; for higher levels
`max = 20000 * 1.5^(level-5)` and `min = getLevelThresholds(level-1).max`
(the JS guard `level > 5` on the recursive call is false only at
`level ≤ 0`, embedded in the `0` case where `min = max`).  The float
arithmetic `20000 * Math.pow(1.5, level - 5)` is embedded exactly in `ℚ`. -/
def getLevelThresholds : Nat → ℚ × ℚ
  | 0 => (20000 * (3 / 2 : ℚ) ^ ((0 : Int) - 5), 20000 * (3 / 2 : ℚ) ^ ((0 : Int) - 5))
  | 1 => (0, 1000)
  | 2 => (1000, 2500)
  | 3 => (2500, 5000)
  | 4 => (5000, 10000)
  | 5 => (10000, 20000)
  | n + 6 =>
    ((getLevelThresholds (n + 5)).2, 20000 * (3 / 2 : ℚ) ^ (((n : Int) + 6) - 5))

/-- `getXPProgress` of `user-rank.tsx`:
`Math.max(0, Math.min(100, (xp - min) / (max - min) * 100))`. -/
def getXPProgress (xp : ℚ) (level : Nat) : ℚ :=
  let t := getLevelThresholds level
  let current := xp - t.1
  let total := t.2 - t.1
  max 0 (min 100 (current / total * 100))

/-- The character class `[a-zA-Z0-9._-]` of the repository-name regular
expression in the create-repo modal's `validateName`. -/
def isRepoNameChar (c : Char) : Bool :=
  (97 ≤ c.toNat && c.toNat ≤ 122) || (65 ≤ c.toNat && c.toNat ≤ 90) ||
    (48 ≤ c.toNat && c.toNat ≤ 57) || c.toNat == 46 || c.toNat == 95 ||
    c.toNat == 45

/-- The ECMAScript `WhiteSpace ∪ LineTerminator` set removed by
`String.prototype.trim`. -/
def isJsWhitespace (c : Char) : Bool :=
  (9 ≤ c.toNat && c.toNat ≤ 13) || c.toNat == 32 || c.toNat == 160 ||
    c.toNat == 5760 || (8192 ≤ c.toNat && c.toNat ≤ 8202) ||
    c.toNat == 8232 || c.toNat == 8233 || c.toNat == 8239 ||
    c.toNat == 8287 || c.toNat == 12288 || c.toNat == 65279

/-- JavaScript `repoName.trim()`, on the character list of the string. -/
def jsTrim (s : List Char) : List Char :=
  ((s.dropWhile isJsWhitespace).reverse.dropWhile isJsWhitespace).reverse

/-- `repoName.startsWith(".") || repoName.startsWith("-") ||
repoName.startsWith("_")`. -/
def startsWithForbidden (s : List Char) : Bool :=
  match s with
  | [] => false
  | c :: _ => c == '.' || c == '-' || c == '_'

/-- `repoName.endsWith(".") || repoName.endsWith("-") ||
repoName.endsWith("_")`. -/
def endsWithForbidden (s : List Char) : Bool :=
  match s.getLast? with
  | some c => c == '.' || c == '-' || c == '_'
  | none => false

/-- `/^[a-zA-Z0-9._-]+$/.test(repoName)`. -/
def matchesNamePattern (s : List Char) : Bool :=
  !s.isEmpty && s.all isRepoNameChar

/-- `validateName` of the create-repo modal (`CreateRepoModal`), on the
character list of the name; `none` is the JS `null` (name accepted), `some`
carries the error message returned. -/
def validateName (repoName : List Char) : Option String :=
  if (jsTrim repoName).length = 0 then
    some "Repository name is required"
  else if 100 < repoName.length then
    some "Repository name must be 100 characters or less"
  else if startsWithForbidden repoName then
    some "Repository name cannot start with . - or _"
  else if endsWithForbidden repoName then
    some "Repository name cannot end with . - or _"
  else if !matchesNamePattern repoName then
    some "Repository name can only contain letters, numbers, dots, hyphens, and underscores"
  else
    none

/-- Outcome of the `toggleProjectStar` request awaited by
`handleStarToggle` in `project-card.tsx`: the promise resolves with a
`starred` flag or rejects. -/
inductive StarToggleOutcome where
  | ok : Bool → StarToggleOutcome
  | failed : StarToggleOutcome
deriving DecidableEq, Repr

/-- The `starred` state after `handleStarToggle` of `project-card.tsx`
completes, as a function of the pre-request state and the request outcome:
on success the state becomes `result.starred`; in the `catch` branch the
code runs `setStarred(!starred)` where `starred` is the pre-request
closure value (no optimistic update preceded the request). -/
def handleStarToggle (starred : Bool) (outcome : StarToggleOutcome) : Bool :=
  match outcome with
  | .ok b => b
  | .failed => !starred

/-! ## Concrete sample values used by witnesses and counterexamples -/

/-- A Clerk OAuth token lacking the `repo` scope. -/
def clerkTokenNoRepo : GitHubToken := ⟨"clerk_oauth_token", ["read:user"]⟩

/-- An environment `GITHUB_TOKEN` carrying the `repo` scope. -/
def envTokenWithRepo : GitHubToken := ⟨"ghp_env_token", ["repo"]⟩

/-- A joined project with identifier `projA`. -/
def projectJoinedA : Project := ⟨"projA", ⟨2024, 5, 1, 0⟩, some (some 10)⟩

/-- A commit contribution to the joined project `projA`. -/
def contributionInsideA : Contribution := ⟨"user1", "projA", "commit"⟩

/-- A commit contribution (same author) to the un-joined project `projB`. -/
def contributionOutsideB : Contribution := ⟨"user1", "projB", "commit"⟩

/-- A joined project whose `setup_time_estimate_minutes` key is absent. -/
def projectNoEstimate : Project := ⟨"projNoEst", ⟨2024, 4, 10, 0⟩, none⟩

/-- A joined project with `setup_time_estimate_minutes = 10`. -/
def projectEstimate10 : Project := ⟨"projEst10", ⟨2024, 4, 11, 0⟩, some (some 10)⟩

/-- A joined project whose `setup_time_estimate_minutes` key is present
but stored as null. -/
def projectNullEstimate : Project := ⟨"projNullEst", ⟨2024, 4, 12, 0⟩, some none⟩

/-- A visit time in the middle of May 2024 (UTC). -/
def nowMid2024May : DateTime := ⟨2024, 5, 15, 600⟩

/-- A project dated 1 June 2024 — after the calendar month of
`nowMid2024May` ends. -/
def projectNextMonth : Project := ⟨"projFuture", ⟨2024, 6, 1, 0⟩, none⟩

/-- A project created on the first day of `nowMid2024May`'s month. -/
def projectFirstOfMay : Project := ⟨"projMay1", ⟨2024, 5, 1, 0⟩, none⟩

/-- A project created on the last day of the month before
`nowMid2024May`'s month. -/
def projectEndOfApril : Project := ⟨"projApr30", ⟨2024, 4, 30, 1439⟩, none⟩

/-! ## Helper lemmas -/

/-- For levels of the form `n + 6` the band max is `20000 * 1.5^(n+1)`. -/
lemma getLevelThresholds_max_succ (n : Nat) :
    (getLevelThresholds (n + 6)).2 = 20000 * (3 / 2 : ℚ) ^ ((n : Int) + 1) := by
  show 20000 * (3 / 2 : ℚ) ^ (((n : Int) + 6) - 5) = _
  have he : ((n : Int) + 6) - 5 = (n : Int) + 1 := by ring
  rw [he]

/-- For levels of the form `n + 5` the band max is `20000 * 1.5^n`. -/
lemma getLevelThresholds_max_base (n : Nat) :
    (getLevelThresholds (n + 5)).2 = 20000 * (3 / 2 : ℚ) ^ (n : Int) := by
  cases n with
  | zero => norm_num [getLevelThresholds]
  | succ m =>
    show 20000 * (3 / 2 : ℚ) ^ (((m : Int) + 6) - 5) = _
    have he : ((m : Int) + 6) - 5 = ((m + 1 : ℕ) : Int) := by push_cast; ring
    rw [he]

/-- Clamping with `Math.max 0 (Math.min 100 v)` equals the spec's
"values below 0 become 0, values above 100 become 100". -/
lemma clamp_eq (v : ℚ) :
    max 0 (min 100 v) = if v < 0 then 0 else if 100 < v then 100 else v := by
  split_ifs with h1 h2
  · rw [min_eq_right (by linarith), max_eq_left (le_of_lt h1)]
  · rw [min_eq_left (by linarith)]
    norm_num
  · rw [min_eq_right (by linarith), max_eq_right (by linarith)]

/-- Counting one contribution type after the joined-project filter equals
a single count over the unfiltered list with the conjoined predicate. -/
lemma countType_filter_eq (all : List Contribution) (ids : List String)
    (t : String) :
    countContributionsOfType (filterContributions all ids) t =
      all.countP (fun c => decide (c.type = t ∧ c.project_id ∈ ids)) := by
  induction all with
  | nil => rfl
  | cons c cs ih =>
    by_cases hm : c.project_id ∈ ids <;> by_cases ht : c.type = t <;>
      simp [countContributionsOfType, filterContributions, List.countP_cons,
        List.filter_cons, hm, ht] at ih ⊢ <;> omega

/-- Every character of the repo-name class `[a-zA-Z0-9._-]` is outside the
JavaScript `trim` whitespace set. -/
lemma repoNameChar_not_whitespace (c : Char) (h : isRepoNameChar c = true) :
    isJsWhitespace c = false := by
  simp only [isRepoNameChar, Bool.or_eq_true, Bool.and_eq_true,
    decide_eq_true_eq, Nat.beq_eq_true_eq] at h
  simp only [isJsWhitespace, Bool.or_eq_false_iff, Bool.and_eq_false_iff,
    decide_eq_false_iff_not, Nat.not_le, beq_eq_false_iff_ne, ne_eq]
  omega

/-- `dropWhile` is the identity when no element satisfies the predicate. -/
lemma dropWhile_eq_self_of_none (p : Char → Bool) (l : List Char)
    (h : ∀ c ∈ l, p c = false) : l.dropWhile p = l := by
  cases l with
  | nil => rfl
  | cons a l => simp [List.dropWhile, h a (by simp)]

/-- `trim` is the identity on strings with no whitespace character. -/
lemma jsTrim_eq_self (s : List Char) (h : ∀ c ∈ s, isJsWhitespace c = false) :
    jsTrim s = s := by
  unfold jsTrim
  rw [dropWhile_eq_self_of_none _ _ h,
    dropWhile_eq_self_of_none _ _ (fun c hc => h c (List.mem_reverse.mp hc)),
    List.reverse_reverse]

/-! ## Claim theorems -/

/-- C6: `getLevelThresholds` returns the fixed bands (0, 1000),
(1000, 2500), (2500, 5000), (5000, 10000), (10000, 20000) for levels 1–5,
and for every level L > 5 it returns a band whose min is level L−1's max
and whose max is 1.5 times level L−1's max. -/
theorem getLevelThresholds_bands :
    getLevelThresholds 1 = (0, 1000) ∧ getLevelThresholds 2 = (1000, 2500) ∧
    getLevelThresholds 3 = (2500, 5000) ∧ getLevelThresholds 4 = (5000, 10000) ∧
    getLevelThresholds 5 = (10000, 20000) ∧
    ∀ L : Nat, 5 < L →
      (getLevelThresholds L).1 = (getLevelThresholds (L - 1)).2 ∧
      (getLevelThresholds L).2 = 3 / 2 * (getLevelThresholds (L - 1)).2 := by
  refine ⟨rfl, rfl, rfl, rfl, rfl, ?_⟩
  intro L hL
  obtain ⟨n, rfl⟩ : ∃ n, L = n + 6 := ⟨L - 6, by omega⟩
  have hpred : n + 6 - 1 = n + 5 := by omega
  constructor
  · rw [hpred]
    rfl
  · rw [hpred]
    conv_lhs => rw [getLevelThresholds_max_succ n]
    conv_rhs => rw [getLevelThresholds_max_base n]
    rw [zpow_add_one₀ (by norm_num : (3 / 2 : ℚ) ≠ 0)]
    ring

/-- Witness for C6 at level 7: the recurrence hypothesis `5 < 7` is
discharged concretely. -/
theorem getLevelThresholds_bands_witness :
    5 < 7 ∧ ((getLevelThresholds 7).1 = (getLevelThresholds (7 - 1)).2 ∧
      (getLevelThresholds 7).2 = 3 / 2 * (getLevelThresholds (7 - 1)).2) :=
  ⟨by decide, getLevelThresholds_bands.2.2.2.2.2 7 (by decide)⟩

/-- C7: for every xp and level, `getXPProgress xp level` equals
`(xp − min) / (max − min) × 100` clamped into `[0, 100]`, with
`(min, max) = getLevelThresholds level`. -/
theorem getXPProgress_clamped (xp : ℚ) (level : Nat) :
    getXPProgress xp level =
      (if (xp - (getLevelThresholds level).1) /
            ((getLevelThresholds level).2 - (getLevelThresholds level).1) * 100 < 0
        then 0
        else if 100 < (xp - (getLevelThresholds level).1) /
            ((getLevelThresholds level).2 - (getLevelThresholds level).1) * 100
        then 100
        else (xp - (getLevelThresholds level).1) /
            ((getLevelThresholds level).2 - (getLevelThresholds level).1) * 100) := by
  show max 0 (min 100 _) = _
  exact clamp_eq _

/-- C10: for every level ≥ 1 the band has min strictly below max, so the
denominator `max − min` of `getXPProgress` is nonzero there.  Termination
of `getLevelThresholds` is by the structural recursion of its definition
(the recursive call decreases the level by one toward the base cases). -/
theorem getLevelThresholds_min_lt_max (level : Nat) (h : 1 ≤ level) :
    (getLevelThresholds level).1 < (getLevelThresholds level).2 := by
  match level, h with
  | 1, _ | 2, _ | 3, _ | 4, _ | 5, _ => norm_num [getLevelThresholds]
  | n + 6, _ =>
    show (getLevelThresholds (n + 5)).2 < (getLevelThresholds (n + 6)).2
    rw [getLevelThresholds_max_base n, getLevelThresholds_max_succ n,
      zpow_add_one₀ (by norm_num : (3 / 2 : ℚ) ≠ 0)]
    have hp : (0 : ℚ) < 20000 * (3 / 2 : ℚ) ^ (n : Int) := by positivity
    linarith

/-- Witness for C10 at level 6. -/
theorem getLevelThresholds_min_lt_max_witness :
    1 ≤ 6 ∧ (getLevelThresholds 6).1 < (getLevelThresholds 6).2 :=
  ⟨by decide, getLevelThresholds_min_lt_max 6 (by decide)⟩

/-- C1: one dashboard visit persists `last_visit_date = now` and updates
the streak by the calendar-day difference: absent (or unparseable) date →
1; same day → unchanged; exactly one day before → +1; more than one day
before → reset to 1. -/
theorem updateStreak_spec (last : Option Int) (s now : Int) :
    (updateStreak last s now).2 = now ∧
    (last = none → (updateStreak last s now).1 = 1) ∧
    (∀ d, last = some d → d = now → (updateStreak last s now).1 = s) ∧
    (∀ d, last = some d → now - d = 1 → (updateStreak last s now).1 = s + 1) ∧
    (∀ d, last = some d → 1 < now - d → (updateStreak last s now).1 = 1) := by
  cases last with
  | none => simp [updateStreak]
  | some d =>
    refine ⟨?_, by simp, ?_, ?_, ?_⟩
    · simp only [updateStreak]
      split_ifs <;> rfl
    · intro d' hd' heq
      obtain rfl : d' = d := by injection hd' with h; exact h.symm
      subst heq
      simp [updateStreak]
    · intro d' hd' hdiff
      obtain rfl : d' = d := by injection hd' with h; exact h.symm
      simp only [updateStreak]
      rw [if_neg (by omega), if_pos hdiff]
    · intro d' hd' hdiff
      obtain rfl : d' = d := by injection hd' with h; exact h.symm
      simp only [updateStreak]
      rw [if_neg (by omega), if_neg (by omega)]

/-- Witness for C1: all four streak cases at concrete day numbers
(now = day 100). -/
theorem updateStreak_spec_witness :
    (updateStreak (some 97) 5 100).2 = 100 ∧
    (updateStreak none 5 100).1 = 1 ∧
    (updateStreak (some 100) 5 100).1 = 5 ∧
    (updateStreak (some 99) 5 100).1 = 5 + 1 ∧
    (updateStreak (some 97) 5 100).1 = 1 :=
  ⟨(updateStreak_spec (some 97) 5 100).1,
   (updateStreak_spec none 5 100).2.1 rfl,
   (updateStreak_spec (some 100) 5 100).2.2.1 100 rfl rfl,
   (updateStreak_spec (some 99) 5 100).2.2.2.1 99 rfl (by decide),
   (updateStreak_spec (some 97) 5 100).2.2.2.2 97 rfl (by decide)⟩

/-- C4: repository creation selects the Clerk token when it carries the
`repo` scope, otherwise the environment token when that one carries
`repo`, and fails (returns no token) exactly when neither candidate
carries `repo`. -/
theorem selectGitHubToken_spec (clerk env : Option GitHubToken) :
    (∀ t, clerk = some t → "repo" ∈ t.scopes →
      selectGitHubToken clerk env = some t) ∧
    (hasRepoScope clerk = false →
      ∀ e, env = some e → "repo" ∈ e.scopes →
        selectGitHubToken clerk env = some e) ∧
    (selectGitHubToken clerk env = none ↔
      hasRepoScope clerk = false ∧ hasRepoScope env = false) := by
  cases clerk <;> cases env <;>
    simp only [selectGitHubToken, envTokenFallback, hasRepoScope] <;>
    first
      | (split_ifs <;> simp_all)
      | simp_all

/-- Witness for C4: Clerk token without `repo` plus environment token with
`repo` selects the environment token; with no environment token the
selection fails. -/
theorem selectGitHubToken_spec_witness :
    selectGitHubToken (some clerkTokenNoRepo) (some envTokenWithRepo) =
      some envTokenWithRepo ∧
    selectGitHubToken (some clerkTokenNoRepo) none = none :=
  ⟨(selectGitHubToken_spec (some clerkTokenNoRepo) (some envTokenWithRepo)).2.1
      (by decide) envTokenWithRepo rfl (by decide),
   (selectGitHubToken_spec (some clerkTokenNoRepo) none).2.2.mpr
      ⟨by decide, by decide⟩⟩

/-- C2: each dashboard counter equals the number of contributions of the
corresponding type whose `project_id` lies in the joined-project
identifier set, and a contribution to an un-joined project never survives
the filter, regardless of its author. -/
theorem dashboard_counts_joined_only (all : List Contribution)
    (ps : List Project) :
    dashboardCommits all ps =
      all.countP (fun c => decide (c.type = "commit" ∧
        c.project_id ∈ joined_project_ids ps)) ∧
    dashboardPullRequests all ps =
      all.countP (fun c => decide (c.type = "pull_request" ∧
        c.project_id ∈ joined_project_ids ps)) ∧
    dashboardIssuesClosed all ps =
      all.countP (fun c => decide (c.type = "issue" ∧
        c.project_id ∈ joined_project_ids ps)) ∧
    ∀ c : Contribution, c.project_id ∉ joined_project_ids ps →
      c ∉ filterContributions all (joined_project_ids ps) := by
  refine ⟨countType_filter_eq all _ "commit",
    countType_filter_eq all _ "pull_request",
    countType_filter_eq all _ "issue", ?_⟩
  intro c hc hmem
  rw [filterContributions, List.mem_filter] at hmem
  simp at hmem
  exact hc hmem.2

/-- Witness for C2: the commit authored by the same user in un-joined
`projB` is dropped by the joined-project filter. -/
theorem dashboard_counts_joined_only_witness :
    contributionOutsideB ∉
      filterContributions [contributionInsideA, contributionOutsideB]
        (joined_project_ids [projectJoinedA]) :=
  (dashboard_counts_joined_only [contributionInsideA, contributionOutsideB]
    [projectJoinedA]).2.2.2 contributionOutsideB (by decide)

/-- Counterexample to C3 as stated: for a project whose
`setup_time_estimate_minutes` key is present but stored as null, the code
does not substitute 7 — `dict.get` returns the stored `None` and the sum
raises (`none` here), whereas the claim demands the total `some 7`. -/
theorem time_saved_minutes_null_not_defaulted :
    projectNullEstimate.setup_time_estimate_minutes = some none ∧
    time_saved_minutes [projectNullEstimate] = none ∧
    (none : Option Nat) ≠ some 7 := by
  decide

/-- C3 (amended): when no joined project stores a null estimate,
`timeSavedMinutes` is the sum over the joined projects of
`setup_time_estimate_minutes` with 7 substituted for every project whose
key is absent; two joined projects, one with no estimate and one with
estimate 10, give 17. -/
theorem time_saved_minutes_spec :
    (∀ ps : List Project,
      (∀ p ∈ ps, p.setup_time_estimate_minutes ≠ some none) →
      time_saved_minutes ps =
        some (ps.foldr (fun p acc =>
          (match p.setup_time_estimate_minutes with
            | some (some n) => n
            | _ => 7) + acc) 0)) ∧
    time_saved_minutes [projectNoEstimate, projectEstimate10] = some 17 := by
  constructor
  · intro ps
    induction ps with
    | nil => intro _; rfl
    | cons p ps ih =>
      intro hnn
      have hp : p.setup_time_estimate_minutes ≠ some none :=
        hnn p (List.mem_cons_self p ps)
      have ihp := ih (fun q hq => hnn q (List.mem_cons_of_mem p hq))
      simp only [time_saved_minutes, List.foldr_cons]
      rw [ihp]
      match hfield : p.setup_time_estimate_minutes with
      | none => simp [setupEstimateGet, hfield]
      | some (some n) => simp [setupEstimateGet, hfield]
      | some none => exact absurd hfield hp
  · decide

/-- Witness for C3 (amended) at the spec's own example list: no stored
null, and the total is the 7-defaulted sum. -/
theorem time_saved_minutes_spec_witness :
    (∀ p ∈ [projectNoEstimate, projectEstimate10],
      p.setup_time_estimate_minutes ≠ some none) ∧
    time_saved_minutes [projectNoEstimate, projectEstimate10] =
      some ([projectNoEstimate, projectEstimate10].foldr (fun p acc =>
        (match p.setup_time_estimate_minutes with
          | some (some n) => n
          | _ => 7) + acc) 0) :=
  ⟨by decide,
   time_saved_minutes_spec.1 [projectNoEstimate, projectEstimate10] (by decide)⟩

/-- Counterexample to C5 as stated: a project dated 1 June 2024 is
retained by the filter for a visit on 15 May 2024, although its
`created_at` is not strictly before the start of the next calendar month —
the code checks only the lower bound `created_at >= current_month_start`. -/
theorem owned_projects_this_month_no_upper_bound :
    owned_projects_this_month [projectNextMonth] nowMid2024May =
      [projectNextMonth] ∧
    dtLt projectNextMonth.created_at (nextMonthStart nowMid2024May) = false := by
  decide

/-- C5 (amended): the monthly filter retains exactly the projects whose
`created_at` is on or after the start of now's calendar month — there is
no upper bound.  In particular a project created on the first day of the
current month is retained and one created on the last day of the previous
month is not. -/
theorem owned_projects_this_month_spec :
    (∀ (ps : List Project) (now : DateTime) (p : Project),
      p ∈ owned_projects_this_month ps now ↔
        p ∈ ps ∧ dtLe (monthStart now) p.created_at = true) ∧
    owned_projects_this_month [projectFirstOfMay] nowMid2024May =
      [projectFirstOfMay] ∧
    owned_projects_this_month [projectEndOfApril] nowMid2024May = [] := by
  refine ⟨?_, by decide, by decide⟩
  intro ps now p
  simp [owned_projects_this_month, List.mem_filter]

/-- C8: `validateName` rejects (returns an error) every name that starts
or ends with `.`, `-` or `_` or contains a character outside
`[a-zA-Z0-9._-]`, and accepts (returns `none`) every non-empty name of at
most 100 such characters that does not start or end with `.`, `-`, `_`. -/
theorem validateName_spec :
    (∀ name : List Char,
      (startsWithForbidden name = true ∨ endsWithForbidden name = true ∨
        ∃ c ∈ name, isRepoNameChar c = false) →
      validateName name ≠ none) ∧
    (∀ name : List Char, name ≠ [] → name.length ≤ 100 →
      (∀ c ∈ name, isRepoNameChar c = true) →
      startsWithForbidden name = false → endsWithForbidden name = false →
      validateName name = none) := by
  constructor
  · intro name h hnone
    unfold validateName at hnone
    split_ifs at hnone with h1 h2 h3 h4 h5
    rcases h with hs | he | ⟨c, hc, hbad⟩
    · exact h3 hs
    · exact h4 he
    · have hm : matchesNamePattern name = true := by
        cases hmb : matchesNamePattern name
        · exact absurd (by rw [hmb]; rfl) h5
        · rfl
      rw [matchesNamePattern, Bool.and_eq_true, List.all_eq_true] at hm
      have hc' := hm.2 c hc
      rw [hc'] at hbad
      exact Bool.noConfusion hbad
  · intro name hne hlen hall hs he
    have htrim : jsTrim name = name :=
      jsTrim_eq_self name (fun c hc => repoNameChar_not_whitespace c (hall c hc))
    unfold validateName
    rw [htrim]
    rw [if_neg (by simp [List.length_eq_zero, hne]),
      if_neg (by omega),
      if_neg (by simp [hs]),
      if_neg (by simp [he]),
      if_neg ?_]
    simp only [matchesNamePattern, Bool.not_eq_true', Bool.not_eq_false,
      Bool.and_eq_true, List.all_eq_true]
    exact ⟨by simp [List.isEmpty_iff, hne], hall⟩

/-- Witness for C8: a name starting with a dot is rejected; a plain
two-letter name is accepted. -/
theorem validateName_spec_witness :
    validateName ['.', 'a'] ≠ none ∧ validateName ['a', 'b'] = none :=
  ⟨validateName_spec.1 ['.', 'a'] (Or.inl (by decide)),
   validateName_spec.2 ['a', 'b'] (by decide) (by decide) (by decide)
     (by decide) (by decide)⟩

/-- C9: evaluating the star-toggle handler at the failing input.  The
claim states the displayed `starred` state reverts to its pre-request
value when the request fails; the code's `catch` branch instead runs
`setStarred(!starred)` with no optimistic update having preceded the
request, so a card that was un-starred before a failed toggle displays as
starred afterwards — the state is negated, not restored. -/
theorem handleStarToggle_failed_negates :
    handleStarToggle false StarToggleOutcome.failed = true := rfl

end OpenForge
